import Mathlib

/-!
Verification of the transformez vertical-datum engine.

Shallow embedding of the repository's Python sources:
  * `definitions.py` — the datum registry (`Datums`);
  * `grid_engine.py` — mosaicking, bilinear interpolation, decay fill;
  * `htdp.py`        — the legacy-tool (HTDP) text-protocol bridge;
  * `transform.py`   — the hub-and-spoke vertical transform orchestrator.

IEEE NaN is modelled by `none` in `Option`-valued cells: every arithmetic
operation on cells propagates `none`, mirroring NaN propagation in numpy.
Float arithmetic is modelled exactly over `ℚ` (transform layer) or over an
ordered field (grid-engine layer, instantiated at `ℝ` where a square root
is genuinely needed).
-/

namespace Transformez

/-! ## NaN-carrying cell values and grids -/

/-- A cell value: `none` models an IEEE NaN ("no data"), `some v` a number. -/
abbrev Val (α : Type) := Option α

/-- Cell addition; NaN propagates (numpy `+`). -/
def vadd {α : Type} [Add α] : Val α → Val α → Val α
  | some a, some b => some (a + b)
  | _, _ => none

/-- Cell negation; NaN propagates (numpy unary `-`). -/
def vneg {α : Type} [Neg α] : Val α → Val α
  | some a => some (-a)
  | none => none

/-- Cell scaling by a constant; NaN propagates (numpy scalar `*`). -/
def vscale {α : Type} [Mul α] (c : α) : Val α → Val α
  | some a => some (c * a)
  | none => none

/-- A 2-D grid of shape `(ny rows × nx cols)` of NaN-carrying cells,
as produced by the engine (row index first, like `numpy` row-major). -/
abbrev Grid (α : Type) (ny nx : ℕ) := Fin ny → Fin nx → Val α

/-- `np.zeros((ny, nx))`. -/
def Grid.zeros {α : Type} [Zero α] {ny nx : ℕ} : Grid α ny nx := fun _ _ => some 0

/-- Cell-wise grid addition (numpy `+=` on same-shape arrays). -/
def Grid.add {α : Type} [Add α] {ny nx : ℕ} (g h : Grid α ny nx) : Grid α ny nx :=
  fun i j => vadd (g i j) (h i j)

/-- `grid * -1` (numpy scalar multiply; NaN cells stay NaN). -/
def Grid.negOne {α : Type} [Mul α] [Neg α] [One α] {ny nx : ℕ} (g : Grid α ny nx) :
    Grid α ny nx :=
  fun i j => (g i j).map (fun v => v * (-1))

/-- `np.any(grid)`: true iff some cell is truthy, i.e. nonzero or NaN
(`bool(nan)` is `True` in numpy). -/
def anyCell {α : Type} [Zero α] [DecidableEq α] {ny nx : ℕ} (g : Grid α ny nx) : Bool :=
  decide (∃ i j, g i j ≠ some 0)

/-! ## Datum registry (`definitions.py`, class `Datums`)

The Python `dict`s are embedded as association lists preserving insertion
order, since `get_vdatum_by_name` scans them in that order. -/

structure SurfaceInfo where
  name : String
  description : String
  uncertainty : ℚ
  epsg : ℕ
deriving DecidableEq

/-- `Datums.SURFACES` (tidal / hydraulic / legacy vertical surfaces). -/
def SURFACES : List (ℕ × SurfaceInfo) :=
  [ (1089, ⟨"mllw", "Mean Lower Low Water", 0, 5866⟩)
  , (5866, ⟨"mllw", "Mean Lower Low Water", 0, 5866⟩)
  , (1091, ⟨"mlw", "Mean Low Water", 0, 1091⟩)
  , (5869, ⟨"mhhw", "Mean Higher High Water", 0, 5869⟩)
  , (5868, ⟨"mhw", "Mean High Water", 0, 5868⟩)
  , (5714, ⟨"msl", "Mean Sea Level", 0, 5714⟩)
  , (5713, ⟨"mtl", "Mean Tide Level", 0, 5713⟩)
  , (0, ⟨"crd", "Columbia River Datum", 0, 0⟩)
  , (5609, ⟨"IGLD85", "International Great Lakes Datum 1985", 0, 5609⟩)
  , (9000, ⟨"LWD_IGLD85", "IGLD85 Low Water Datum", 0, 5609⟩)
  , (5702, ⟨"NGVD29", "National Geodetic Vertical Datum 1929", 5/100, 5702⟩) ]

structure HtdpInfo where
  name : String
  description : String
  htdp_id : ℕ
  uncertainty : ℚ
  epoch : ℚ
deriving DecidableEq

/-- `Datums.HTDP` (ellipsoidal frames served by the HTDP bridge). -/
def HTDP_FRAMES : List (ℕ × HtdpInfo) :=
  [ (4269, ⟨"NAD_83(2011/CORS96/2007)", "(North American plate fixed)", 1, 2/100, 1997⟩)
  , (6781, ⟨"NAD_83(2011/CORS96/2007)", "(North American plate fixed)", 1, 2/100, 1997⟩)
  , (6319, ⟨"NAD_83(2011/CORS96/2007)", "(North American plate fixed)", 1, 2/100, 1997⟩)
  , (6321, ⟨"NAD_83(PA11/PACP00)", "(Pacific plate fixed)", 2, 2/100, 1997⟩)
  , (6324, ⟨"NAD_83(MA11/MARP00)", "(Mariana plate fixed)", 3, 2/100, 1997⟩)
  , (4979, ⟨"WGS_84(original)", "(NAD_83(2011) used)", 4, 0, 1997⟩)
  , (7815, ⟨"WGS_84(original)", "(NAD_83(2011) used)", 4, 0, 1997⟩)
  , (7816, ⟨"WGS_84(original)", "(NAD_83(2011) used)", 4, 0, 1997⟩)
  , (7656, ⟨"WGS_84(G730)", "(ITRF91 used)", 5, 0, 1997⟩)
  , (7657, ⟨"WGS_84(G730)", "(ITRF91 used)", 5, 0, 1997⟩)
  , (7658, ⟨"WGS_84(G873)", "(ITRF94 used)", 6, 0, 1997⟩)
  , (7659, ⟨"WGS_84(G873)", "(ITRF94 used)", 6, 0, 1997⟩)
  , (7660, ⟨"WGS_84(G1150)", "(ITRF2000 used)", 7, 0, 1997⟩)
  , (7661, ⟨"WGS_84(G1150)", "(ITRF2000 used)", 7, 0, 1997⟩)
  , (7662, ⟨"WGS_84(G1674)", "(ITRF2008 used)", 8, 0, 2000⟩)
  , (7663, ⟨"WGS_84(G1674)", "(ITRF2008 used)", 8, 0, 2000⟩)
  , (7664, ⟨"WGS_84(G1762)", "(IGb08 used)", 9, 0, 2000⟩)
  , (7665, ⟨"WGS_84(G1762)", "(IGb08 used)", 9, 0, 2000⟩)
  , (7666, ⟨"WGS_84(G2139)", "(ITRF2014=IGS14=IGb14 used)", 10, 0, 1997⟩)
  , (7667, ⟨"WGS_84(G2139)", "(ITRF2014=IGS14=IGb14 used)", 10, 0, 1997⟩)
  , (4910, ⟨"ITRF88", "", 11, 0, 1988⟩)
  , (4911, ⟨"ITRF89", "", 12, 0, 1988⟩)
  , (7901, ⟨"ITRF89", "", 12, 0, 1988⟩)
  , (7902, ⟨"ITRF90", "(PNEOS90/NEOS90)", 13, 0, 1988⟩)
  , (7903, ⟨"ITRF91", "", 14, 0, 1988⟩)
  , (7904, ⟨"ITRF92", "", 15, 0, 1988⟩)
  , (7905, ⟨"ITRF93", "", 16, 0, 1988⟩)
  , (7906, ⟨"ITRF94", "", 17, 0, 1988⟩)
  , (7907, ⟨"ITRF96", "", 18, 0, 1996⟩)
  , (7908, ⟨"ITRF97", "IGS97", 19, 0, 1997⟩)
  , (7909, ⟨"ITRF2000", "IGS00/IGb00", 20, 0, 2000⟩)
  , (7910, ⟨"ITRF2005", "IGS05", 21, 0, 2000⟩)
  , (7911, ⟨"ITRF2008", "IGS08/IGb08", 22, 0, 2000⟩)
  , (7912, ⟨"ELLIPSOID", "IGS14/IGb14/WGS84/ITRF2014 Ellipsoid", 23, 0, 2000⟩)
  , (1322, ⟨"ITRF2020", "IGS20", 24, 0, 2000⟩) ]

structure CdnInfo where
  name : String
  vdatum_id : Option String
  default_geoid : Option String
  ellipsoid : Option ℕ
deriving DecidableEq

/-- `Datums.CDN` (orthometric frames with a default geoid model). -/
def CDN : List (ℕ × CdnInfo) :=
  [ (5703, ⟨"NAVD88 height", some "navd88:m:height", some "g2018", some 6319⟩)
  , (6360, ⟨"NAVD88 height (usFt)", none, some "g2018", none⟩)
  , (8228, ⟨"NAVD88 height (Ft)", none, some "g2018", none⟩)
  , (6641, ⟨"PRVD02 height", some "prvd02:m:height", some "g2018", some 6319⟩)
  , (6642, ⟨"VIVD09 height", some "vivd09:m:height", some "g2018", some 6319⟩)
  , (6647, ⟨"CGVD2013(CGG2013)", some "cgvd2013:m:height", some "CGG2013", none⟩)
  , (3855, ⟨"EGM2008 height", some "egm2008:m:height", some "egm2008", none⟩)
  , (5773, ⟨"EGM96 height", some "egm96:m:height", some "egm96", none⟩) ]

structure GeoidInfo where
  name : String
  uncertainty : ℚ
  provider : String
deriving DecidableEq

/-- `Datums.GEOIDS`. -/
def GEOIDS : List (String × GeoidInfo) :=
  [ ("g2018", ⟨"geoid 2018", 127/10000, "proj"⟩)
  , ("g2012b", ⟨"geoid 2012b", 17/1000, "proj"⟩)
  , ("geoid09", ⟨"geoid 2009", 5/100, "proj"⟩)
  , ("xgeoid20b", ⟨"xgeoid20b", 2/100, "vdatum"⟩)
  , ("xgeoid19b", ⟨"xgeoid19b", 2/100, "vdatum"⟩)
  , ("egm2008", ⟨"EGM2008", 0, "proj"⟩)
  , ("egm96", ⟨"EGM96", 0, "proj"⟩)
  , ("CGG2013", ⟨"CGG2013", 1/100, "proj"⟩) ]

/-- Association-list lookup in declaration order (`dict[key]` / `dict.get`). -/
def alist.lookup {κ ν : Type} [DecidableEq κ] (tbl : List (κ × ν)) (k : κ) : Option ν :=
  (tbl.find? (fun p => p.1 = k)).map (·.2)

/-- `key in dict`. -/
def alist.mem {κ ν : Type} [DecidableEq κ] (tbl : List (κ × ν)) (k : κ) : Bool :=
  tbl.any (fun p => p.1 = k)

/-- Contiguous-sublist test on lists (executable form of `List.IsInfix`). -/
def listContains {α : Type} [DecidableEq α] (needle : List α) : List α → Bool
  | [] => needle.isEmpty
  | a :: t => needle.isPrefixOf (a :: t) || listContains needle t

/-- Substring containment, Python `needle in hay`. -/
def strContains (hay needle : String) : Bool :=
  listContains needle.toList hay.toList

/-- ASCII lowercasing of one character (Python `str.lower` on the registry's
ASCII identifiers). -/
def lowerChar (c : Char) : Char :=
  if 65 ≤ c.toNat ∧ c.toNat ≤ 90 then Char.ofNat (c.toNat + 32) else c

/-- Case-insensitive substring containment: Python `needle.lower() in hay.lower()`. -/
def containsLower (hay needle : String) : Bool :=
  listContains (needle.toList.map lowerChar) (hay.toList.map lowerChar)

/-- Decimal digit test. -/
def isDigitC (c : Char) : Bool := 48 ≤ c.toNat && c.toNat ≤ 57

/-- Numeric value of a digit list, most significant first. -/
def natOfDigits (cs : List Char) : ℕ :=
  cs.foldl (fun n c => 10 * n + (c.toNat - 48)) 0

/-- Python `int(s)`: optional sign, then at least one digit;
`none` models the `ValueError` on anything else. -/
def pyInt (cs : List Char) : Option Int :=
  match cs with
  | '-' :: t => if t ≠ [] ∧ t.all isDigitC then some (-(natOfDigits t : Int)) else none
  | '+' :: t => if t ≠ [] ∧ t.all isDigitC then some ((natOfDigits t : Int)) else none
  | t => if t ≠ [] ∧ t.all isDigitC then some ((natOfDigits t : Int)) else none

/-- Python `int(s)` on a string. -/
def pyIntStr (s : String) : Option Int := pyInt s.toList

/-- `Datums.get_default_geoid`: default geoid for a CDN EPSG, else `None`.
(Python calls `int(epsg)` first; a `None`/unparsable input yields `None`,
modelled by the caller passing `Option.bind`.) -/
def get_default_geoid (epsg : ℕ) : Option String :=
  (alist.lookup CDN epsg).bind (·.default_geoid)

/-- One round of `get_vdatum_by_name` over a single frame table, projected to
`(epsg, name)` pairs: exact numeric key match first, then the first entry
whose display name contains the queried name case-insensitively. -/
def tryFrameTable (tbl : List (ℕ × String)) (datum_int : Option Int)
    (datum_name : String) : Option ℕ :=
  match datum_int with
  | some k =>
      if tbl.any (fun p => (p.1 : Int) = k) then some k.toNat
      else (tbl.find? (fun p => containsLower p.2 datum_name)).map (·.1)
  | none => (tbl.find? (fun p => containsLower p.2 datum_name)).map (·.1)

/-- `(epsg, name)` projection of `SURFACES`. -/
def surfaceNames : List (ℕ × String) := SURFACES.map (fun p => (p.1, p.2.name))

/-- `(epsg, name)` projection of `HTDP_FRAMES`. -/
def htdpNames : List (ℕ × String) := HTDP_FRAMES.map (fun p => (p.1, p.2.name))

/-- `(epsg, name)` projection of `CDN`. -/
def cdnNames : List (ℕ × String) := CDN.map (fun p => (p.1, p.2.name))

/-- `Datums.get_vdatum_by_name`: resolve a datum string to an EPSG code.
Tables are scanned in the fixed order SURFACES, HTDP, CDN; in each table an
exact integer-key match wins over the first case-insensitive name-substring
match. -/
def get_vdatum_by_name (datum_name : String) : Option ℕ :=
  let di := pyIntStr datum_name
  (tryFrameTable surfaceNames di datum_name)
    <|> (tryFrameTable htdpNames di datum_name)
    <|> (tryFrameTable cdnNames di datum_name)

/-- `Datums.get_frame_type`: which table an EPSG belongs to
(`None` input, from a failed resolution, belongs to none). -/
def get_frame_type (epsg : Option ℕ) : Option String :=
  match epsg with
  | none => none
  | some e =>
      if alist.mem SURFACES e then some "surface"
      else if alist.mem HTDP_FRAMES e then some "htdp"
      else if alist.mem CDN e then some "cdn"
      else none

/-! ## Grid mosaic engine (`grid_engine.py`, class `GridEngine`)

Developed over an arbitrary linear ordered field so that every definition
stays executable; the decay fill needs the Euclidean distance
`sqrt(squared-distance)`, which is passed in as a function `dsqrt` and
instantiated with `Real.sqrt` in the theorems that need it. -/

section GridEngine

variable {α : Type} [LinearOrderedField α]

/-- `np.clip(x, lo, hi)`. -/
def clip (x lo hi : α) : α := min (max x lo) hi

/-- `np.linspace(a, b, n)[k]`: `n` evenly spaced samples from `a` to `b`
inclusive (`n ≤ 1` degenerates to `a`, as numpy's single-sample case). -/
def linspaceAt (a b : α) (n k : ℕ) : α :=
  if n ≤ 1 then a else a + (k : α) * (b - a) / ((n : α) - 1)

/-- Any-NaN test, `np.isnan(data).any()`. -/
def hasNaN (data : List (List (Val α))) : Bool :=
  data.any (fun row => row.any Option.isNone)

/-- All-NaN test, `mask.all()`. -/
def allNaN (data : List (List (Val α))) : Bool :=
  data.all (fun row => row.all Option.isNone)

/-- The non-NaN cells of a grid with their row-major coordinates. -/
def validCells (data : List (List (Val α))) : List (ℕ × ℕ × α) :=
  (data.enum.map (fun p =>
    p.2.enum.filterMap (fun q => q.2.map (fun v => (p.1, q.1, v))))).flatten

/-- Squared Euclidean pixel distance between two cells. -/
def dist2 (i j i2 j2 : ℕ) : ℕ :=
  (((i : ℤ) - i2) ^ 2 + ((j : ℤ) - j2) ^ 2).toNat

/-- The nearest valid cell to `(i, j)`: squared distance and value.
Models `scipy.ndimage.distance_transform_edt(..., return_indices=True)`,
which yields the exact Euclidean distance to, and the index of, the nearest
non-masked cell; among equidistant cells the first in row-major order is
kept (the scipy tie-break is likewise a fixed deterministic choice). -/
def nearestValid (data : List (List (Val α))) (i j : ℕ) : Option (ℕ × α) :=
  (validCells data).foldl (fun best c =>
    let cand : ℕ × α := (dist2 i j c.1 c.2.1, c.2.2)
    match best with
    | none => some cand
    | some b => if cand.1 < b.1 then some cand else some b) none

/-- The per-cell update of `fill_nans`: a valid cell is kept; a NaN cell
receives the nearest valid value times the linear decay factor
`clip((decay - dist) / decay, 0, 1)` with `dist` the Euclidean distance
to that nearest valid cell. -/
def fillCell (dsqrt : ℕ → α) (data : List (List (Val α))) (decay_pixels : ℕ)
    (i j : ℕ) (c : Val α) : Val α :=
  match c with
  | some v => some v
  | none =>
      match nearestValid data i j with
      | some dv =>
          some (dv.2 *
            clip (((decay_pixels : α) - dsqrt dv.1) / (decay_pixels : α)) 0 1)
      | none => none

/-- `GridEngine.fill_nans`: fill each NaN cell with the value of the nearest
valid cell, decayed linearly to zero over `decay_pixels` of Euclidean
distance; grids with no NaN, or with nothing but NaN, are returned as-is. -/
def fill_nans (dsqrt : ℕ → α) (data : List (List (Val α))) (decay_pixels : ℕ) :
    List (List (Val α)) :=
  if !(hasNaN data) then data
  else if allNaN data then data
  else
    data.enum.map (fun p => p.2.enum.map (fun q =>
      fillCell dsqrt data decay_pixels p.1 q.1 q.2))

/-- Cell lookup on a list grid: `some (cell)` when `(i, j)` is in range
(the cell itself may still be the NaN `none`), `none` when out of range. -/
def getCell (data : List (List (Val α))) (i j : ℕ) : Option (Val α) :=
  (data.get? i).bind (fun row => row.get? j)

/-- `np.searchsorted(l, x)` (side `left`) on a sorted axis: the number of
axis points strictly below `x`. -/
def searchsortedL (l : List α) (x : α) : ℕ :=
  (l.takeWhile (fun a => decide (a < x))).length

/-- The interpolation interval index scipy uses: `searchsorted(l, x) - 1`
clamped into `[0, l.length - 2]` (ℕ subtraction already clamps at 0). -/
def findInterval (l : List α) (x : α) : ℕ :=
  min (searchsortedL l x - 1) (l.length - 2)

/-- Axis point at an index (the default is never reached on guarded axes). -/
def axisAt (l : List α) (i : ℕ) : α := l.getD i 0

/-- The scaled coordinate of `x` inside its interval,
`(x - l[i]) / (l[i+1] - l[i])`; outside the axis range this lies outside
`[0, 1]` and linear evaluation extrapolates. -/
def normDist (l : List α) (x : α) (i : ℕ) : α :=
  (x - axisAt l i) / (axisAt l (i + 1) - axisAt l i)

/-- Data cell at `(i, j)`, NaN when out of range (never reached on guarded
shapes). -/
def corner (data : List (List (Val α))) (i j : ℕ) : Val α :=
  match data.get? i with
  | some row => match row.get? j with | some v => v | none => none
  | none => none

/-- One query of `scipy.interpolate.RegularGridInterpolator` built with
`method='linear'`, `bounds_error=False`, `fill_value=None` on axes
`(lats, lons)`: the bilinear combination of the four corners of the
clamped interval. `fill_value=None` means no out-of-bounds masking is
applied, so queries beyond the axes extrapolate linearly; a NaN corner
propagates (numpy `0 * nan` is still `nan`). -/
def interpAt (lats lons : List α) (data : List (List (Val α))) (y x : α) : Val α :=
  let i := findInterval lats y
  let j := findInterval lons x
  let ty := normDist lats y i
  let tx := normDist lons x j
  vadd
    (vscale (1 - ty)
      (vadd (vscale (1 - tx) (corner data i j)) (vscale tx (corner data i (j + 1)))))
    (vscale ty
      (vadd (vscale (1 - tx) (corner data (i + 1) j))
        (vscale tx (corner data (i + 1) (j + 1)))))

/-- A source raster as `_read_raster` returns it: axis coordinates (pixel
centers, longitudes already wrapped into [-180, 180]) and the data with
nodata sentinels replaced by NaN. -/
structure Source (α : Type) where
  lons : List α
  lats : List α
  data : List (List (Val α))

/-- Strict ascending test on an axis. -/
def strictlyInc : List α → Bool
  | [] => true
  | [_] => true
  | a :: b :: t => decide (a < b) && strictlyInc (b :: t)

/-- The target mosaic region as `load_and_interpolate` indexes it:
`r0, r1` bound the x (longitude) axis, `r2, r3` the y (latitude) axis. -/
structure Region4 (α : Type) where
  r0 : α
  r1 : α
  r2 : α
  r3 : α

/-- The per-source body of the `load_and_interpolate` loop: pre-fill internal
NaNs (decay 100), reject sources whose extent misses the target region, flip
axes to be ascending, and produce the bilinear patch on the target sample
points. `none` models every `continue` path, including the exceptions the
loop catches (scipy rejects axes that are not strictly monotonic, axes with
fewer than two points, and data whose shape does not match the axes). -/
def processSource (dsqrt : ℕ → α) (reg : Region4 α) (nx ny : ℕ) (src : Source α) :
    Option (Grid α ny nx) :=
  let data := if hasNaN src.data then fill_nans dsqrt src.data 100 else src.data
  match src.lons.min?, src.lons.max?, src.lats.min?, src.lats.max? with
  | some lonmin, some lonmax, some latmin, some latmax =>
      if lonmin > reg.r1 || lonmax < reg.r0 || latmin > reg.r3 || latmax < reg.r2
      then none
      else
        let flip1 : List α × List (List (Val α)) :=
          if axisAt src.lons 0 > axisAt src.lons (src.lons.length - 1)
          then (src.lons.reverse, data.map List.reverse)
          else (src.lons, data)
        let lons := flip1.1
        let flip2 : List α × List (List (Val α)) :=
          if axisAt src.lats 0 > axisAt src.lats (src.lats.length - 1)
          then (src.lats.reverse, flip1.2.reverse)
          else (src.lats, flip1.2)
        let lats := flip2.1
        let data := flip2.2
        if strictlyInc lats && strictlyInc lons
            && decide (2 ≤ lats.length) && decide (2 ≤ lons.length)
            && decide (data.length = lats.length)
            && data.all (fun row => decide (row.length = lons.length))
        then some (fun i j =>
          interpAt lats lons data (linspaceAt reg.r2 reg.r3 ny i) (linspaceAt reg.r0 reg.r1 nx j))
        else none
  | _, _, _, _ => none

/-- The mosaic merge of one cell: a target cell is overwritten only while it
is still NaN and the incoming patch value is valid. -/
def mergeCell (m p : Val α) : Val α :=
  if m.isNone && !(p.isNone) then p else m

/-- One iteration of the `load_and_interpolate` source loop: read the file,
process it into a patch (`none` on any `continue` path), and merge. -/
def mosaicStep {ny nx : ℕ} (dsqrt : ℕ → α) (readRaster : String → Option (Source α))
    (reg : Region4 α) (mosaic : Grid α ny nx) (fn : String) : Grid α ny nx :=
  match (readRaster fn).bind (processSource dsqrt reg nx ny) with
  | none => mosaic
  | some patch => fun i j => mergeCell (mosaic i j) (patch i j)

/-- `GridEngine.load_and_interpolate`: mosaic the sources, in caller order,
onto the target grid, first-valid-source-wins. `readRaster` models
`os.path.exists` plus `_read_raster` (a missing or unreadable file is
`none` and is skipped). -/
def loadAndInterpolate (dsqrt : ℕ → α) (readRaster : String → Option (Source α))
    (files : List String) (reg : Region4 α) (nx ny : ℕ) : Grid α ny nx :=
  files.foldl (mosaicStep dsqrt readRaster reg) (fun _ _ => none)

/-- The patches the loop actually produced, in caller order. -/
def patchesOf (dsqrt : ℕ → α) (readRaster : String → Option (Source α))
    (files : List String) (reg : Region4 α) (nx ny : ℕ) : List (Grid α ny nx) :=
  files.filterMap (fun fn => (readRaster fn).bind (processSource dsqrt reg nx ny))

/-- The first valid (non-NaN) value for a cell among a list of patches. -/
def firstValidAt {ny nx : ℕ} : List (Grid α ny nx) → Fin ny → Fin nx → Val α
  | [], _, _ => none
  | p :: ps, i, j =>
      match p i j with
      | some v => some v
      | none => firstValidAt ps i j

end GridEngine

/-! ## Legacy tool bridge (`htdp.py`, class `HTDP`)

Output parsing (`_next_point` / `_read_grid`) over the tool's output read as
a list of lines. Heights are exact rationals; the numeral parser accepts the
fixed-format signed decimals the tool emits (a form Python's `float` also
accepts; exotic `float` spellings such as exponents or `inf` do not occur in
the fixed-width records). -/

/-- Split a character list on a separator character, keeping empty pieces
(Python `s.split('.')` / `s.split('_')` semantics for one-character
separators). -/
def splitOnChar (c : Char) : List Char → List (List Char)
  | [] => [[]]
  | a :: t =>
      if a = c then [] :: splitOnChar c t
      else
        match splitOnChar c t with
        | [] => [[a]]
        | h :: r => (a :: h) :: r

/-- Split a character list at every separator-class character. -/
def splitPred (p : Char → Bool) : List Char → List (List Char)
  | [] => [[]]
  | a :: t =>
      if p a then [] :: splitPred p t
      else
        match splitPred p t with
        | [] => [[a]]
        | h :: r => (a :: h) :: r

/-- Python's whitespace class for `str.split()` / `str.strip()`. -/
def isWs (c : Char) : Bool :=
  c.toNat = 32 || c.toNat = 9 || c.toNat = 10 || c.toNat = 13
    || c.toNat = 11 || c.toNat = 12

/-- Python `s.strip()`. -/
def trimL (cs : List Char) : List Char :=
  ((cs.dropWhile isWs).reverse.dropWhile isWs).reverse

/-- Python `float(s)` on a plain signed decimal numeral, `none` on failure
(a failure is caught as `ValueError` and skips the line; the exotic
spellings `float` would also accept never occur in the fixed-format
records). -/
def parseFloatL (cs : List Char) : Option ℚ :=
  let sgn : ℚ × List Char :=
    match cs with
    | '-' :: t => (-1, t)
    | '+' :: t => (1, t)
    | t => (1, t)
  match splitOnChar '.' sgn.2 with
  | [a] =>
      if a ≠ [] ∧ a.all isDigitC then some (sgn.1 * natOfDigits a) else none
  | [a, b] =>
      if (a ≠ [] ∨ b ≠ []) ∧ a.all isDigitC ∧ b.all isDigitC then
        some (sgn.1 * ((natOfDigits a : ℚ) + (natOfDigits b : ℚ) / 10 ^ b.length))
      else none
  | _ => none

/-- Python `float(s)` on a string. -/
def parseFloat (s : String) : Option ℚ := parseFloatL s.toList

/-- The `"` character (written by code point to keep quoting unambiguous). -/
def quoteChar : Char := Char.ofNat 34

/-- The one-character string `"`. -/
def quoteStr : String := String.mk [quoteChar]

/-- The marker `PNT_` scanned for in every output line. -/
def pntTag : List Char := ['P', 'N', 'T', '_']

/-- Python `s.strip('"')`: remove leading and trailing double quotes. -/
def stripQuotesL (cs : List Char) : List Char :=
  ((cs.dropWhile (fun c => c = quoteChar)).reverse.dropWhile
    (fun c => c = quoteChar)).reverse

/-- The parsing body of `HTDP._next_point` for one already-stripped line:
space out the quotes (`line.replace('"', ' "')`), split on whitespace, drop
a leading `*` warning marker, read latitude, longitude and height, locate
the quoted `PNT_<col>_<row>` tag anywhere among the fields and recover the
two indices from it. Any parse failure (`ValueError`/`IndexError`) skips
the line. -/
def parseLineL (line : List Char) : Option (Int × Int × ℚ × ℚ × ℚ) :=
  let clean := line.flatMap (fun c => if c = quoteChar then [' ', quoteChar] else [c])
  let parts := (splitPred isWs clean).filter (fun s => s ≠ [])
  let parts := match parts with
    | p :: ps => if p = ['*'] then ps else p :: ps
    | [] => []
  match parts with
  | p0 :: p1 :: p2 :: _ =>
      match parseFloatL p0, parseFloatL p1, parseFloatL p2 with
      | some lat, some lon, some eht =>
          match parts.find? (fun p => listContains pntTag p) with
          | some tag =>
              let toks := splitOnChar '_' (stripQuotesL tag)
              match toks.get? 1, toks.get? 2 with
              | some sx, some sy =>
                  match pyInt sx, pyInt sy with
                  | some x, some y => some (x, y, lat, lon, eht)
                  | _, _ => none
              | _, _ => none
          | none => none
      | _, _, _ => none
  | _ => none

/-- `HTDP._next_point` parsing on one line given as a string. -/
def parseLine (line : String) : Option (Int × Int × ℚ × ℚ × ℚ) :=
  parseLineL line.toList

/-- `grid[y, x] = h` on a rectangular list grid, with Python/numpy index
semantics: negative indices wrap once, and an index out of range raises
`IndexError`, modelled as `none` (the caller logs and drops the point). -/
def storeAt (grid : List (List ℚ)) (y x : Int) (h : ℚ) : Option (List (List ℚ)) :=
  let rows := grid.length
  if -(rows : Int) ≤ y ∧ y < (rows : Int) then
    let iy := (if y < 0 then y + rows else y).toNat
    match grid.get? iy with
    | some row =>
        let cols := row.length
        if -(cols : Int) ≤ x ∧ x < (cols : Int) then
          let ix := (if x < 0 then x + cols else x).toNat
          some (grid.set iy (row.set ix h))
        else none
    | none => none
  else none

/-- The `while ptuple is not None` loop of `HTDP._read_grid` fused with the
line scan of `_next_point`: every stripped line containing `PNT_` that
parses is stored at `grid[row, col]` re-derived from its tag, and only a
successful store increments the found-points counter. -/
def readLoop : List String → List (List ℚ) → ℕ → List (List ℚ) × ℕ
  | [], grid, found => (grid, found)
  | line :: rest, grid, found =>
      let l := trimL line.toList
      if listContains pntTag l then
        match parseLineL l with
        | some t =>
            match storeAt grid t.2.1 t.1 t.2.2.2.2 with
            | some g2 => readLoop rest g2 (found + 1)
            | none => readLoop rest grid found
        | none => readLoop rest grid found
      else readLoop rest grid found

/-- `np.zeros(shape)` as a rectangular list grid. -/
def zeroGrid (rows cols : ℕ) : List (List ℚ) :=
  List.replicate rows (List.replicate cols (0 : ℚ))

/-- The fatal point-count message of `_read_grid`. -/
def countMsg (found expected : ℕ) : String :=
  "Points found: " ++ toString found ++ ", Points expected: " ++ toString expected

/-- `HTDP._read_grid`: echo (consume) five header lines when verbose, parse
and store every point, then abort (`sys.exit(1)`, modelled as
`Except.error`) unless at least `rows * cols` points were stored. -/
def readGrid (verbose : Bool) (fileLines : List String) (rows cols : ℕ) :
    Except String (List (List ℚ)) :=
  let body := if verbose then fileLines.drop 5 else fileLines
  let res := readLoop body (zeroGrid rows cols) 0
  if res.2 < rows * cols then Except.error (countMsg res.2 (rows * cols))
  else Except.ok res.1

/-! ## Vertical transform orchestrator (`transform.py`, class `VerticalTransform`)

External collaborators are parameters of the run:
  * `Env.fetch p n` models `fetch_grid` (the fetchez collaborator): the list of
    local correction-grid files found for provider `p` and grid name `n`;
  * `Env.mosaic fs` models `GridEngine.load_and_interpolate fs region nx ny`
    applied to the contents of those files (raster file contents are outside
    the program, so the composited grid they produce is part of the
    environment).
Log lines relevant to the claims (grid fetches and missing-grid warnings)
are returned as an explicit event trace. -/

/-- The geodetic pivot `HUB_EPSG` (NAD83(2011) / EPSG:6319). -/
def HUB_EPSG : ℕ := 6319

/-- Observable events of a transform run: a grid fetch was executed, or a
"No grids found" warning was logged. -/
inductive Event where
  | fetched (provider name : String)
  | warned (name provider : String)
deriving DecidableEq

/-- The external collaborators of one transform run (fixed region, nx, ny). -/
structure Env (ny nx : ℕ) where
  fetch : String → String → List String
  mosaic : List String → Grid ℚ ny nx

variable {ny nx : ℕ}

/-- Python truthiness of an optional string (`None` and `""` are falsy). -/
def isTruthy : Option String → Bool
  | none => false
  | some s => s ≠ ""

/-- Python `a if a else b` / `a or b` on optional strings. -/
def orElseStr (a : Option String) (b : String) : String :=
  match a with
  | some s => if s = "" then b else s
  | none => b

/-- The `name[6:]` strip applied when `'geoid=' in name`. -/
def resolveName (name : String) : String :=
  if strContains name "geoid=" then String.mk (name.toList.drop 6) else name

/-- `if not provider: provider = 'proj'`. -/
def resolveProvider (provider : Option String) : String :=
  match provider with
  | some p => if p = "" then "proj" else p
  | none => "proj"

/-- `VerticalTransform._get_grid`: fetch a named grid and interpolate it onto
the target geometry; an empty fetch result is non-fatal and yields an
all-zero grid plus a logged warning. -/
def getGrid (env : Env ny nx) (provider : Option String) (name : Option String) :
    Grid ℚ ny nx × List Event :=
  match name with
  | none => (Grid.zeros, [])
  | some n =>
      if n = "" then (Grid.zeros, [])
      else
        let p := resolveProvider provider
        let n := resolveName n
        let files := env.fetch p n
        if files = [] then (Grid.zeros, [Event.fetched p n, Event.warned n p])
        else (env.mosaic files, [Event.fetched p n])

/-- `VerticalTransform._get_vdatum_chain`: the composed shift from a tidal
datum to the hub ellipsoid, `Hub_Z = Tidal_Z + Tidal_Sep + TSS + Geoid_N`. -/
def getVdatumChain (env : Env ny nx) (datum_name : String) (geoid_name : Option String) :
    Grid ℚ ny nx × String × List Event :=
  let start : Grid ℚ ny nx × List String × List Event := (Grid.zeros, [], [])
  let step1 :=
    if datum_name ∉ ["msl", "5714", "lmsl"] then
      let fg := getGrid env (some "vdatum") (some datum_name)
      (start.1.add fg.1, start.2.1 ++ ["(" ++ datum_name ++ "->LMSL)"], start.2.2 ++ fg.2)
    else start
  let tss := getGrid env (some "vdatum") (some "tss")
  let step2 := (step1.1.add tss.1, step1.2.1 ++ ["TSS"], step1.2.2 ++ tss.2)
  let actual_geoid := orElseStr geoid_name "g2018"
  let provider := ((alist.lookup GEOIDS actual_geoid).map (·.provider)).getD "proj"
  let geoid := getGrid env (some provider) (some actual_geoid)
  let step3 := (step2.1.add geoid.1,
                step2.2.1 ++ ["Geoid(" ++ actual_geoid ++ ")"],
                step2.2.2 ++ geoid.2)
  (step3.1, String.intercalate " + " step3.2.1, step3.2.2)

/-- List of methods defined on the `HTDP` class in `htdp.py`. -/
def HTDP_methods : List String :=
  ["__init__", "_next_point", "_read_grid", "_new_create_grid",
   "_write_grid", "_write_control", "run"]

/-- `VerticalTransform._get_htdp_shift`. The body builds an `HTDP` instance and
calls `tool.run_grid(...)`, but `run_grid` is not defined on the `HTDP` class
(see `HTDP_methods`), so the attribute access raises `AttributeError`, the
bare `except Exception` swallows it, and an all-zero grid is returned on
every call that reaches the tool. -/
def getHtdpShift (epsg_from epsg_to : ℕ) (epoch_from epoch_to : ℚ) : Grid ℚ ny nx :=
  if epsg_from = epsg_to ∧ epoch_from = epoch_to then Grid.zeros
  else Grid.zeros

/-- `VerticalTransform._step_to_hub`: shift from the input frame to the hub. -/
def stepToHub (env : Env ny nx) (epsg : Option ℕ) (ref_type : Option String)
    (geoid : Option String) (epoch : ℚ) : Grid ℚ ny nx × String × List Event :=
  if epsg = some HUB_EPSG ∧ epoch = 1997 then (Grid.zeros, "Already at Hub", [])
  else if ref_type = some "surface" then
    let datum_name := (((epsg.bind (alist.lookup SURFACES)).map (·.name))).getD ""
    let chain := getVdatumChain env datum_name geoid
    (chain.1, "Tidal(" ++ datum_name ++ ") -> Hub [Add Chain: " ++ chain.2.1 ++ "]",
     chain.2.2)
  else if ref_type = some "cdn" then
    if isTruthy geoid then
      let g := orElseStr geoid ""
      let provider := ((alist.lookup GEOIDS g).map (·.provider)).getD "proj"
      let fg := getGrid env (some provider) (some g)
      (fg.1, "Ortho(via " ++ g ++ ") -> Hub [Geoid Add]", fg.2)
    else (Grid.zeros, "Ortho -> Hub [Missing Geoid - Zero Shift]", [])
  else if ref_type = some "htdp" then
    (getHtdpShift (epsg.getD 0) HUB_EPSG epoch 1997, "Ellipsoid -> Hub [HTDP]", [])
  else (Grid.zeros, "", [])

/-- `VerticalTransform._step_from_hub`: shift from the hub to the output frame,
`Output_Z = Hub_Z + Shift`. -/
def stepFromHub (env : Env ny nx) (epsg : Option ℕ) (ref_type : Option String)
    (geoid : Option String) (epoch : ℚ) : Grid ℚ ny nx × String × List Event :=
  if epsg = some HUB_EPSG ∧ epoch = 1997 then (Grid.zeros, "Remain at Hub", [])
  else if ref_type = some "surface" then
    let datum_name := (((epsg.bind (alist.lookup SURFACES)).map (·.name))).getD ""
    let chain_geoid := orElseStr geoid "g2018"
    let chain := getVdatumChain env datum_name (some chain_geoid)
    (chain.1.negOne,
     "Hub -> Tidal(" ++ datum_name ++ ") [Subtract Chain: " ++ chain.2.1 ++ "]",
     chain.2.2)
  else if ref_type = some "cdn" then
    let target_geoid := orElseStr geoid "g2018"
    let provider := ((alist.lookup GEOIDS target_geoid).map (·.provider)).getD "proj"
    let fg := getGrid env (some provider) (some target_geoid)
    (fg.1.negOne, "Hub -> Ortho(via " ++ target_geoid ++ ") [Geoid Subtract]", fg.2)
  else if ref_type = some "htdp" then
    (getHtdpShift HUB_EPSG (epsg.getD 0) 1997 epoch, "Hub -> Ellipsoid [HTDP]", [])
  else (Grid.zeros, "", [])

/-- The state `VerticalTransform.__init__` stores for one run (the resolved
frames, geoids, epochs and frame types). -/
structure VT where
  epsg_in : Option ℕ
  epsg_out : Option ℕ
  geoid_in : Option String
  geoid_out : Option String
  epoch_in : ℚ
  epoch_out : ℚ
  ref_in : Option String
  ref_out : Option String
deriving DecidableEq

/-- `VerticalTransform.__init__`: resolve the datum strings, default the
geoids from the output CDN table, default the epochs to 1997.0 (Python
`float(e) if e else 1997.0`, so a falsy epoch also defaults). -/
def mkVT (epsg_in_s epsg_out_s : String) (geoid_in geoid_out : Option String)
    (epoch_in epoch_out : Option ℚ) : VT :=
  let ei := get_vdatum_by_name epsg_in_s
  let eo := get_vdatum_by_name epsg_out_s
  { epsg_in := ei
    epsg_out := eo
    geoid_in := match geoid_in with
      | some s => if s = "" then ei.bind get_default_geoid else some s
      | none => ei.bind get_default_geoid
    geoid_out := match geoid_out with
      | some s => if s = "" then eo.bind get_default_geoid else some s
      | none => eo.bind get_default_geoid
    epoch_in := match epoch_in with
      | some e => if e = 0 then 1997 else e
      | none => 1997
    epoch_out := match epoch_out with
      | some e => if e = 0 then 1997 else e
      | none => 1997
    ref_in := get_frame_type ei
    ref_out := get_frame_type eo }

/-- `VerticalTransform._vertical_transform`: the two-leg pivot walk.
Returns the shift grid, the (always zero placeholder) uncertainty grid, and
the event trace. A leg whose grid is all-falsy (`np.any` is false) is only
skipped in logging; skipping an all-zero addition never changes the sum. -/
def verticalTransform (env : Env ny nx) (vt : VT) :
    Grid ℚ ny nx × Grid ℚ ny nx × List Event :=
  let total_shift : Grid ℚ ny nx := Grid.zeros
  let total_unc : Grid ℚ ny nx := Grid.zeros
  if vt.epsg_in = vt.epsg_out ∧ vt.epoch_in = vt.epoch_out ∧ vt.geoid_in = vt.geoid_out
  then (total_shift, total_unc, [])
  else
    let leg1 := stepToHub env vt.epsg_in vt.ref_in vt.geoid_in vt.epoch_in
    let total_shift := if anyCell leg1.1 then total_shift.add leg1.1 else total_shift
    let leg2 := stepFromHub env vt.epsg_out vt.ref_out vt.geoid_out vt.epoch_out
    let total_shift := if anyCell leg2.1 then total_shift.add leg2.1 else total_shift
    (total_shift, total_unc, leg1.2.2 ++ leg2.2.2)

/-! ## Concrete scenario data used by the theorems below -/

/-- A constant-valued grid. -/
def constGrid {ny nx : ℕ} (v : ℚ) : Grid ℚ ny nx := fun _ _ => some v

/-- The run state for a `mllw` → EPSG:5703 (NAVD88, default geoid) transform
with no overrides, as `__init__` resolves it. -/
def vtMllwNavd : VT := mkVT "mllw" "5703" none none none none

/-- An environment realising the spec's scenario: the three correction legs
come back as constant grids 0.3 (tidal separation), 1.1 (TSS) and
-26.0 (geoid undulation). -/
def envScenario : Env 10 10 :=
  { fetch := fun _ n => [n ++ ".gtx"]
    mosaic := fun files =>
      if files = ["mllw.gtx"] then constGrid (3/10)
      else if files = ["tss.gtx"] then constGrid (11/10)
      else if files = ["g2018.gtx"] then constGrid (-26)
      else fun _ _ => none }

/-- An environment whose mosaics are entirely NaN (all sources missing the
target region, say). -/
def envNaN : Env 2 2 :=
  { fetch := fun _ n => [n ++ ".gtx"]
    mosaic := fun _ => fun _ _ => none }

/-- An environment in which every fetch comes back empty. -/
def envEmptyFetch : Env 1 1 :=
  { fetch := fun _ _ => []
    mosaic := fun _ => fun _ _ => none }

/-- The 2×2 constant-1 source on [0,1]×[0,1] used to exhibit extrapolation. -/
def srcConst1 : Source ℚ :=
  { lons := [0, 1], lats := [0, 1], data := [[some 1, some 1], [some 1, some 1]] }

/-- A target region whose far corner (2,2) lies outside `srcConst1`. -/
def regBeyond : Region4 ℚ := ⟨0, 2, 0, 2⟩

/-- A reader exposing only `srcConst1` under the name "a.tif". -/
def readConst1 : String → Option (Source ℚ) :=
  fun fn => if fn = "a.tif" then some srcConst1 else none

/-- The run state for a transform between two frames given by resolved codes
with no geoid or epoch overrides: the geoids are the registry defaults, the
epochs the 1997.0 default, and the frame types come from the registry. -/
def vtPair (a b : ℕ) : VT :=
  { epsg_in := some a
    epsg_out := some b
    geoid_in := get_default_geoid a
    geoid_out := get_default_geoid b
    epoch_in := 1997
    epoch_out := 1997
    ref_in := get_frame_type (some a)
    ref_out := get_frame_type (some b) }

/-- Cell access on a rectangular list grid (HTDP output grids). -/
def cellQ (g : List (List ℚ)) (i j : ℕ) : Option ℚ :=
  (g.get? i).bind (fun row => row.get? j)

/-- A well-formed HTDP output record for column 3, row 7. -/
def samplePoint : String :=
  "41.300000000 -71.200000000 12.500000000 " ++ quoteStr ++ "PNT_3_7" ++ quoteStr

/-! ## Helper lemmas -/

theorem vadd_zero_left (x : Val ℚ) : vadd (some 0) x = x := by
  cases x <;> simp [vadd]

theorem vadd_zero_right (x : Val ℚ) : vadd x (some 0) = x := by
  cases x <;> simp [vadd]

theorem allZero_of_not_anyCell {g : Grid ℚ ny nx} (h : ¬ anyCell g = true)
    (i : Fin ny) (j : Fin nx) : g i j = some 0 := by
  unfold anyCell at h
  rw [decide_eq_true_iff] at h
  push_neg at h
  exact h i j

/-- A logging-skipped leg (one whose grid fails `np.any`) is all exact
zeros, so conditionally adding it is the same as always adding it. -/
theorem skipAdd_cell (t g : Grid ℚ ny nx) (i : Fin ny) (j : Fin nx) :
    (if anyCell g = true then t.add g else t) i j = vadd (t i j) (g i j) := by
  by_cases hg : anyCell g = true
  · rw [if_pos hg]; rfl
  · rw [if_neg hg, allZero_of_not_anyCell hg i j, vadd_zero_right]

/-- The two-leg sum computed by `_vertical_transform` once the identity
short-circuit does not fire: skipping an `np.any`-falsy leg never changes
the cell-wise sum, because such a leg is all exact zeros. -/
theorem verticalTransform_cell (env : Env ny nx) (vt : VT)
    (h : ¬(vt.epsg_in = vt.epsg_out ∧ vt.epoch_in = vt.epoch_out ∧
        vt.geoid_in = vt.geoid_out)) (i : Fin ny) (j : Fin nx) :
    (verticalTransform env vt).1 i j =
      vadd ((stepToHub env vt.epsg_in vt.ref_in vt.geoid_in vt.epoch_in).1 i j)
        ((stepFromHub env vt.epsg_out vt.ref_out vt.geoid_out vt.epoch_out).1 i j) := by
  unfold verticalTransform
  rw [if_neg h]
  dsimp only
  rw [skipAdd_cell, skipAdd_cell]
  rw [show (Grid.zeros : Grid ℚ ny nx) i j = some 0 from rfl, vadd_zero_left]

/-- Evaluation of `_get_grid` when the fetch finds files: the mosaic of the
fetched files is returned and the fetch is the only logged event. -/
theorem getGrid_eval (env : Env ny nx) (provider : Option String) (n p n2 : String)
    (hne : ¬ n = "") (hp : resolveProvider provider = p) (hrn : resolveName n = n2)
    (hf : ¬ env.fetch p n2 = []) :
    getGrid env provider (some n) =
      (env.mosaic (env.fetch p n2), [Event.fetched p n2]) := by
  subst hp hrn
  unfold getGrid
  dsimp only
  rw [if_neg hne, if_neg hf]

/-- Evaluation of `_get_grid` when the fetch comes back empty: the all-zero
substitute grid is returned and a warning is logged after the fetch. -/
theorem getGrid_empty (env : Env ny nx) (provider : Option String) (n p n2 : String)
    (hne : ¬ n = "") (hp : resolveProvider provider = p) (hrn : resolveName n = n2)
    (hf : env.fetch p n2 = []) :
    getGrid env provider (some n) =
      (Grid.zeros, [Event.fetched p n2, Event.warned n2 p]) := by
  subst hp hrn
  unfold getGrid
  dsimp only
  rw [if_neg hne, if_pos hf]

theorem grid_zeros_add : (Grid.zeros : Grid ℚ ny nx).add Grid.zeros = Grid.zeros := by
  funext i j
  show vadd (some 0) (some 0) = some 0
  simp [vadd]

theorem grid_zeros_negOne : (Grid.zeros : Grid ℚ ny nx).negOne = Grid.zeros := by
  funext i j
  show Option.map (fun v => v * (-1)) (some (0 : ℚ)) = some 0
  simp

theorem anyCell_zeros : anyCell (Grid.zeros : Grid ℚ ny nx) = false := by
  simp [anyCell, Grid.zeros]

theorem vt_epsg_in : vtMllwNavd.epsg_in = some 1089 := by decide

theorem vt_epsg_out : vtMllwNavd.epsg_out = some 5703 := by decide

theorem vt_geoid_in : vtMllwNavd.geoid_in = none := by decide

theorem vt_geoid_out : vtMllwNavd.geoid_out = some "g2018" := by decide

theorem vt_epoch_in : vtMllwNavd.epoch_in = 1997 := by decide

theorem vt_epoch_out : vtMllwNavd.epoch_out = 1997 := by decide

theorem vt_ref_in : vtMllwNavd.ref_in = some "surface" := by decide

theorem vt_ref_out : vtMllwNavd.ref_out = some "cdn" := by decide

/-- One cell of the `mllw` → EPSG:5703 run when the three fetched legs come
back as constant grids 0.3, 1.1 and -26.0: the chain contributes
0.3+1.1-26.0 going to the hub and the orthometric leg -(-26.0) leaving it,
so every cell is 1.4. -/
theorem scenario_cell_eval (env : Env 10 10)
    (hm : ¬ env.fetch "vdatum" "mllw" = [] ∧
        env.mosaic (env.fetch "vdatum" "mllw") = constGrid (3/10))
    (ht : ¬ env.fetch "vdatum" "tss" = [] ∧
        env.mosaic (env.fetch "vdatum" "tss") = constGrid (11/10))
    (hg : ¬ env.fetch "proj" "g2018" = [] ∧
        env.mosaic (env.fetch "proj" "g2018") = constGrid (-26))
    (i j : Fin 10) :
    (verticalTransform env vtMllwNavd).1 i j = some (7/5) := by
  rw [verticalTransform_cell env vtMllwNavd (by decide) i j]
  rw [vt_epsg_in, vt_geoid_in, vt_epoch_in, vt_ref_in,
      vt_epsg_out, vt_geoid_out, vt_epoch_out, vt_ref_out]
  have hchain : (getVdatumChain env "mllw" none).1 i j = some (-123/5) := by
    unfold getVdatumChain
    dsimp only
    rw [if_pos (show "mllw" ∉ ["msl", "5714", "lmsl"] from by decide)]
    rw [getGrid_eval env (some "vdatum") "mllw" "vdatum" "mllw"
        (by decide) (by decide) (by decide) hm.1, hm.2]
    rw [getGrid_eval env (some "vdatum") "tss" "vdatum" "tss"
        (by decide) (by decide) (by decide) ht.1, ht.2]
    rw [getGrid_eval env
        (some ((Option.map (fun x => x.provider)
          (alist.lookup GEOIDS (orElseStr none "g2018"))).getD "proj"))
        (orElseStr none "g2018") "proj" "g2018"
        (by decide) (by decide) (by decide) hg.1, hg.2]
    show vadd (vadd (vadd (some 0) (some (3/10))) (some (11/10))) (some (-26))
      = some (-123/5)
    norm_num [vadd]
  have hleg1 : (stepToHub env (some 1089) (some "surface") none 1997).1 i j
      = some (-123/5) := by
    unfold stepToHub
    rw [if_neg (by decide), if_pos rfl]
    dsimp only
    rw [show (Option.map (fun x => x.name)
        ((some 1089 : Option ℕ).bind (alist.lookup SURFACES))).getD "" = "mllw"
      from by decide]
    exact hchain
  have hleg2 : (stepFromHub env (some 5703) (some "cdn") (some "g2018") 1997).1 i j
      = some 26 := by
    unfold stepFromHub
    rw [if_neg (by decide), if_neg (by decide), if_pos rfl]
    dsimp only
    rw [getGrid_eval env
        (some ((Option.map (fun x => x.provider)
          (alist.lookup GEOIDS (orElseStr (some "g2018") "g2018"))).getD "proj"))
        (orElseStr (some "g2018") "g2018") "proj" "g2018"
        (by decide) (by decide) (by decide) hg.1, hg.2]
    show Option.map (fun v => v * (-1)) (some (-26 : ℚ)) = some 26
    norm_num
  rw [hleg1, hleg2]
  norm_num [vadd]

/-- Claim C1 (amended): in the spec's scenario (frame-in tidal `mllw`,
frame-out the orthometric code 5703 with its default geoid `g2018`, 10×10
grid) with the three correction legs fetched as constant grids 0.3, 1.1 and
-26.0, `computeShift` returns every cell equal to
0.3 + 1.1 + (-26.0) - (-26.0) = 1.4: the from-hub orthometric leg subtracts
the same geoid grid the chain added, so the geoid term cancels. -/
theorem scenario_mllw_to_navd88 (env : Env 10 10)
    (hm : ¬ env.fetch "vdatum" "mllw" = [] ∧
        env.mosaic (env.fetch "vdatum" "mllw") = constGrid (3/10))
    (ht : ¬ env.fetch "vdatum" "tss" = [] ∧
        env.mosaic (env.fetch "vdatum" "tss") = constGrid (11/10))
    (hg : ¬ env.fetch "proj" "g2018" = [] ∧
        env.mosaic (env.fetch "proj" "g2018") = constGrid (-26))
    (i j : Fin 10) :
    (verticalTransform env vtMllwNavd).1 i j = some (7/5) :=
  scenario_cell_eval env hm ht hg i j

/-- Counterexample to claim C1 as stated: in the spec's scenario the
computed cell value is 1.4, which differs from the claimed
-24.6 = -123/5. -/
theorem scenario_cell_not_minus_24_6 :
    (verticalTransform envScenario vtMllwNavd).1 0 0 = some (7/5) ∧
    ¬ ((7 : ℚ)/5 = -123/5) :=
  ⟨scenario_cell_eval envScenario ⟨by decide, rfl⟩ ⟨by decide, rfl⟩
      ⟨by decide, rfl⟩ 0 0,
   by norm_num⟩

/-- Witness for C1 (amended) at the concrete scenario environment. -/
theorem scenario_mllw_to_navd88_witness :
    ((¬ envScenario.fetch "vdatum" "mllw" = []) ∧
      envScenario.mosaic (envScenario.fetch "vdatum" "mllw") = constGrid (3/10)) ∧
    ((¬ envScenario.fetch "vdatum" "tss" = []) ∧
      envScenario.mosaic (envScenario.fetch "vdatum" "tss") = constGrid (11/10)) ∧
    ((¬ envScenario.fetch "proj" "g2018" = []) ∧
      envScenario.mosaic (envScenario.fetch "proj" "g2018") = constGrid (-26)) ∧
    (verticalTransform envScenario vtMllwNavd).1 0 0 = some (7/5) :=
  ⟨⟨by decide, rfl⟩, ⟨by decide, rfl⟩, ⟨by decide, rfl⟩,
    scenario_mllw_to_navd88 envScenario ⟨by decide, rfl⟩ ⟨by decide, rfl⟩
      ⟨by decide, rfl⟩ 0 0⟩

/-- The tidal chain when every fetch is empty: all three legs are the
all-zero substitute and all three warnings are logged. -/
theorem chain_mllw_empty (mos : List String → Grid ℚ 2 2) :
    getVdatumChain (Env.mk (fun _ _ => []) mos) "mllw" none =
      (((Grid.zeros.add Grid.zeros).add Grid.zeros).add Grid.zeros,
       "(mllw->LMSL) + TSS + Geoid(g2018)",
       [Event.fetched "vdatum" "mllw", Event.warned "mllw" "vdatum",
        Event.fetched "vdatum" "tss", Event.warned "tss" "vdatum",
        Event.fetched "proj" "g2018", Event.warned "g2018" "proj"]) := by
  unfold getVdatumChain
  dsimp only
  rw [if_pos (show "mllw" ∉ ["msl", "5714", "lmsl"] from by decide)]
  rw [getGrid_empty _ (some "vdatum") "mllw" "vdatum" "mllw"
      (by decide) (by decide) (by decide) rfl]
  rw [getGrid_empty _ (some "vdatum") "tss" "vdatum" "tss"
      (by decide) (by decide) (by decide) rfl]
  rw [getGrid_empty _
      (some ((Option.map (fun x => x.provider)
        (alist.lookup GEOIDS (orElseStr none "g2018"))).getD "proj"))
      (orElseStr none "g2018") "proj" "g2018"
      (by decide) (by decide) (by decide) rfl]
  rfl

/-- The to-hub leg of the empty-fetch run. -/
theorem stepToHub_mllw_empty (mos : List String → Grid ℚ 2 2) :
    stepToHub (Env.mk (fun _ _ => []) mos) (some 1089) (some "surface") none 1997 =
      (Grid.zeros,
       "Tidal(mllw) -> Hub [Add Chain: (mllw->LMSL) + TSS + Geoid(g2018)]",
       [Event.fetched "vdatum" "mllw", Event.warned "mllw" "vdatum",
        Event.fetched "vdatum" "tss", Event.warned "tss" "vdatum",
        Event.fetched "proj" "g2018", Event.warned "g2018" "proj"]) := by
  unfold stepToHub
  rw [if_neg (by decide), if_pos rfl]
  dsimp only
  rw [show (Option.map (fun x => x.name)
      ((some 1089 : Option ℕ).bind (alist.lookup SURFACES))).getD "" = "mllw"
    from by decide]
  rw [chain_mllw_empty, grid_zeros_add, grid_zeros_add, grid_zeros_add]
  rfl

/-- The from-hub leg of the empty-fetch run. -/
theorem stepFromHub_cdn_empty (mos : List String → Grid ℚ 2 2) :
    stepFromHub (Env.mk (fun _ _ => []) mos) (some 5703) (some "cdn")
        (some "g2018") 1997 =
      (Grid.zeros, "Hub -> Ortho(via g2018) [Geoid Subtract]",
       [Event.fetched "proj" "g2018", Event.warned "g2018" "proj"]) := by
  unfold stepFromHub
  rw [if_neg (by decide), if_neg (by decide), if_pos rfl]
  dsimp only
  rw [getGrid_empty _
      (some ((Option.map (fun x => x.provider)
        (alist.lookup GEOIDS (orElseStr (some "g2018") "g2018"))).getD "proj"))
      (orElseStr (some "g2018") "g2018") "proj" "g2018"
      (by decide) (by decide) (by decide) rfl]
  rw [show ((Grid.zeros : Grid ℚ 2 2), [Event.fetched "proj" "g2018",
      Event.warned "g2018" "proj"]).1.negOne = (Grid.zeros : Grid ℚ 2 2)
    from grid_zeros_negOne]
  rfl

/-- A whole `mllw` → EPSG:5703 run in which every fetch is empty: it
completes, the shift grid is all zeros, and all warnings are recorded. -/
theorem emptyFetch_run (mos : List String → Grid ℚ 2 2) :
    verticalTransform (Env.mk (fun _ _ => []) mos) vtMllwNavd =
      (Grid.zeros, Grid.zeros,
       [Event.fetched "vdatum" "mllw", Event.warned "mllw" "vdatum",
        Event.fetched "vdatum" "tss", Event.warned "tss" "vdatum",
        Event.fetched "proj" "g2018", Event.warned "g2018" "proj",
        Event.fetched "proj" "g2018", Event.warned "g2018" "proj"]) := by
  unfold verticalTransform
  rw [if_neg (by decide)]
  dsimp only
  rw [vt_epsg_in, vt_geoid_in, vt_epoch_in, vt_ref_in,
      vt_epsg_out, vt_geoid_out, vt_epoch_out, vt_ref_out]
  rw [stepToHub_mllw_empty, stepFromHub_cdn_empty]
  dsimp only
  rw [anyCell_zeros]
  rw [if_neg (by decide)]
  rfl

/-- Claim C9: a named correction leg whose fetch returns an empty file list
contributes the all-zero substitute grid and logs a warning; a whole run in
which every fetch is empty still completes (the function is total — no
exception path), returning the all-zero shift grid with the geoid warning
recorded. -/
theorem missing_grid_zero_substitution (env : Env ny nx) (provider : Option String)
    (n p n2 : String) (hne : ¬ n = "") (hp : resolveProvider provider = p)
    (hrn : resolveName n = n2) (hf : env.fetch p n2 = []) :
    getGrid env provider (some n) =
      (Grid.zeros, [Event.fetched p n2, Event.warned n2 p])
    ∧ ∀ (mos : List String → Grid ℚ 2 2),
        (verticalTransform (Env.mk (fun _ _ => []) mos) vtMllwNavd).1 = Grid.zeros
        ∧ Event.warned "g2018" "proj" ∈
            (verticalTransform (Env.mk (fun _ _ => []) mos) vtMllwNavd).2.2 := by
  refine ⟨getGrid_empty env provider n p n2 hne hp hrn hf, fun mos => ?_⟩
  rw [emptyFetch_run mos]
  exact ⟨rfl, by decide⟩

/-- Witness for C9 at a concrete empty-fetch environment. -/
theorem missing_grid_zero_substitution_witness :
    (¬ "g2018" = "") ∧ resolveProvider (some "proj") = "proj" ∧
    resolveName "g2018" = "g2018" ∧ envEmptyFetch.fetch "proj" "g2018" = [] ∧
    (getGrid envEmptyFetch (some "proj") (some "g2018") =
      (Grid.zeros, [Event.fetched "proj" "g2018", Event.warned "g2018" "proj"])
    ∧ ∀ (mos : List String → Grid ℚ 2 2),
        (verticalTransform (Env.mk (fun _ _ => []) mos) vtMllwNavd).1 = Grid.zeros
        ∧ Event.warned "g2018" "proj" ∈
            (verticalTransform (Env.mk (fun _ _ => []) mos) vtMllwNavd).2.2) :=
  ⟨by decide, by decide, by decide, rfl,
    missing_grid_zero_substitution envEmptyFetch (some "proj") "g2018" "proj" "g2018"
      (by decide) (by decide) (by decide) rfl⟩

/-- Claim C6: if the input frame, epoch and geoid each equal the output
frame, epoch and geoid, `computeShift` returns the all-zero grid of shape
(ny, nx) immediately; the empty event trace shows that no leg ran (no fetch
was executed). -/
theorem identity_short_circuit (env : Env ny nx) (e : Option ℕ)
    (g : Option String) (ep : ℚ) (rt : Option String) :
    verticalTransform env ⟨e, e, g, g, ep, ep, rt, rt⟩ =
      (Grid.zeros, Grid.zeros, []) := by
  unfold verticalTransform
  rw [if_pos ⟨rfl, rfl, rfl⟩]

/-- Claim C5: when the identity short-circuit does not fire, `computeShift`
is the cell-wise sum of the to-hub and from-hub leg grids, and a NaN in
either leg makes the result cell NaN (never zero). -/
theorem shift_is_leg_sum_and_nan_propagates (env : Env ny nx) (vt : VT)
    (h : ¬(vt.epsg_in = vt.epsg_out ∧ vt.epoch_in = vt.epoch_out ∧
        vt.geoid_in = vt.geoid_out)) (i : Fin ny) (j : Fin nx) :
    (verticalTransform env vt).1 i j =
      vadd ((stepToHub env vt.epsg_in vt.ref_in vt.geoid_in vt.epoch_in).1 i j)
        ((stepFromHub env vt.epsg_out vt.ref_out vt.geoid_out vt.epoch_out).1 i j)
    ∧ (((stepToHub env vt.epsg_in vt.ref_in vt.geoid_in vt.epoch_in).1 i j = none ∨
        (stepFromHub env vt.epsg_out vt.ref_out vt.geoid_out vt.epoch_out).1 i j = none) →
      (verticalTransform env vt).1 i j = none) := by
  refine ⟨verticalTransform_cell env vt h i j, fun hnan => ?_⟩
  rw [verticalTransform_cell env vt h i j]
  rcases hnan with hnan | hnan <;> rw [hnan]
  · rfl
  · cases (stepToHub env vt.epsg_in vt.ref_in vt.geoid_in vt.epoch_in).1 i j <;> rfl

/-- Witness for C5 at a concrete run: `mllw` → EPSG:5703 over a 2×2 grid in
an environment whose mosaics are entirely NaN, so both legs are NaN grids
and the result cell is NaN. -/
theorem shift_is_leg_sum_witness :
    (¬(vtMllwNavd.epsg_in = vtMllwNavd.epsg_out ∧
        vtMllwNavd.epoch_in = vtMllwNavd.epoch_out ∧
        vtMllwNavd.geoid_in = vtMllwNavd.geoid_out)) ∧
    ((verticalTransform envNaN vtMllwNavd).1 0 0 =
        vadd ((stepToHub envNaN vtMllwNavd.epsg_in vtMllwNavd.ref_in
            vtMllwNavd.geoid_in vtMllwNavd.epoch_in).1 0 0)
          ((stepFromHub envNaN vtMllwNavd.epsg_out vtMllwNavd.ref_out
            vtMllwNavd.geoid_out vtMllwNavd.epoch_out).1 0 0)
      ∧ (((stepToHub envNaN vtMllwNavd.epsg_in vtMllwNavd.ref_in
            vtMllwNavd.geoid_in vtMllwNavd.epoch_in).1 0 0 = none ∨
          (stepFromHub envNaN vtMllwNavd.epsg_out vtMllwNavd.ref_out
            vtMllwNavd.geoid_out vtMllwNavd.epoch_out).1 0 0 = none) →
        (verticalTransform envNaN vtMllwNavd).1 0 0 = none)) :=
  ⟨by decide, shift_is_leg_sum_and_nan_propagates envNaN vtMllwNavd (by decide) 0 0⟩

/-- Claim C2 (code bug): `run_grid` is not among the methods of the `HTDP`
class, so `_get_htdp_shift` always falls into its exception handler and the
hub leg for every ellipsoidal frame (and epoch) pair is the all-zero
substitute grid, never a grid computed by the legacy tool bridge. -/
theorem htdp_leg_is_zero_substitute :
    "run_grid" ∉ HTDP_methods ∧
    (∀ (ny nx ef et : ℕ) (pf pt : ℚ), @getHtdpShift ny nx ef et pf pt = Grid.zeros) ∧
    (∀ (ny nx : ℕ) (env : Env ny nx) (e : Option ℕ) (g : Option String) (ep : ℚ),
      (stepToHub env e (some "htdp") g ep).1 = Grid.zeros ∧
      (stepFromHub env e (some "htdp") g ep).1 = Grid.zeros) := by
  refine ⟨by decide, fun ny nx ef et pf pt => ?_, fun ny nx env e g ep => ⟨?_, ?_⟩⟩
  · unfold getHtdpShift
    split <;> rfl
  · unfold stepToHub
    by_cases hhub : e = some HUB_EPSG ∧ ep = 1997
    · rw [if_pos hhub]
    · rw [if_neg hhub, if_neg (by decide), if_neg (by decide), if_pos rfl]
      show getHtdpShift _ _ _ _ = _
      unfold getHtdpShift
      split <;> rfl
  · unfold stepFromHub
    by_cases hhub : e = some HUB_EPSG ∧ ep = 1997
    · rw [if_pos hhub]
    · rw [if_neg hhub, if_neg (by decide), if_neg (by decide), if_pos rfl]
      show getHtdpShift _ _ _ _ = _
      unfold getHtdpShift
      split <;> rfl

/-! ## Chain antisymmetry (C7) -/

theorem orElseStr_some (s b : String) (h : ¬ s = "") : orElseStr (some s) b = s := by
  simp [orElseStr, h]

theorem orElseStr_idem (g : Option String) :
    orElseStr (some (orElseStr g "g2018")) "g2018" = orElseStr g "g2018" := by
  cases g with
  | none => rfl
  | some s =>
      by_cases hs : s = "" <;> simp [orElseStr, hs]

/-- The tidal chain only uses its geoid argument through the
`geoid if geoid else 'g2018'` default, so pre-applying the default is a
no-op: the from-hub chain fetches exactly the grids of the to-hub chain. -/
theorem chain_geoid_normalize (env : Env ny nx) (dn : String) (g : Option String) :
    getVdatumChain env dn (some (orElseStr g "g2018")) = getVdatumChain env dn g := by
  unfold getVdatumChain
  dsimp only
  rw [orElseStr_idem]

theorem negOne_cell (g : Grid ℚ ny nx) (i : Fin ny) (j : Fin nx) :
    g.negOne i j = vneg (g i j) := by
  cases h : g i j <;> simp [Grid.negOne, vneg, h]

theorem isTruthy_some (s : String) (h : ¬ s = "") : isTruthy (some s) = true := by
  simp [isTruthy, h]

theorem not_hub_pair (x : ℕ) (hx : ¬ x = HUB_EPSG) :
    ¬ ((some x : Option ℕ) = some HUB_EPSG ∧ (1997 : ℚ) = 1997) :=
  fun hcon => hx (Option.some.inj hcon.1)

theorem surface_ne_hub (x : ℕ) (hs : alist.mem SURFACES x = true) : ¬ x = HUB_EPSG := by
  intro hx
  subst hx
  revert hs
  decide

theorem htdp_mem_hub : alist.mem HTDP_FRAMES HUB_EPSG = true := by decide

/-- Every CDN entry carries a nonempty default geoid name. -/
theorem cdn_default_geoid (x : ℕ) (hc : alist.mem CDN x = true) :
    ∃ s, get_default_geoid x = some s ∧ ¬ s = "" := by
  unfold alist.mem at hc
  rw [List.any_eq_true] at hc
  obtain ⟨p, hp, hpx⟩ := hc
  rw [decide_eq_true_iff] at hpx
  have hfind : ∃ q, CDN.find? (fun q => q.1 = x) = some q := by
    have : (CDN.find? (fun q => decide (q.1 = x))).isSome := by
      rw [List.find?_isSome]
      exact ⟨p, hp, by rw [decide_eq_true_iff]; exact hpx⟩
    exact Option.isSome_iff_exists.mp this
  obtain ⟨q, hq⟩ := hfind
  have hqmem : q ∈ CDN := List.mem_of_find?_eq_some hq
  have hdg : ∀ r ∈ CDN, ∃ s, r.2.default_geoid = some s ∧ ¬ s = "" := by decide
  obtain ⟨s, hs1, hs2⟩ := hdg q hqmem
  refine ⟨s, ?_, hs2⟩
  unfold get_default_geoid alist.lookup
  rw [hq]
  simpa using hs1

theorem stepToHub_cdn_grid (env : Env ny nx) (x : ℕ) (s : String)
    (hx : ¬ x = HUB_EPSG) (hs : ¬ s = "") :
    (stepToHub env (some x) (some "cdn") (some s) 1997).1 =
      (getGrid env
        (some ((Option.map (fun q => q.provider) (alist.lookup GEOIDS s)).getD "proj"))
        (some s)).1 := by
  unfold stepToHub
  rw [if_neg (not_hub_pair x hx), if_neg (by decide), if_pos rfl]
  dsimp only
  rw [if_pos (isTruthy_some s hs), orElseStr_some s "" hs]

theorem stepFromHub_cdn_grid (env : Env ny nx) (x : ℕ) (s : String)
    (hx : ¬ x = HUB_EPSG) (hs : ¬ s = "") :
    (stepFromHub env (some x) (some "cdn") (some s) 1997).1 =
      (getGrid env
        (some ((Option.map (fun q => q.provider) (alist.lookup GEOIDS s)).getD "proj"))
        (some s)).1.negOne := by
  unfold stepFromHub
  rw [if_neg (not_hub_pair x hx), if_neg (by decide), if_pos rfl]
  dsimp only
  rw [orElseStr_some s "g2018" hs]

theorem getHtdpShift_zeros (ef et : ℕ) (pf pt : ℚ) :
    @getHtdpShift ny nx ef et pf pt = Grid.zeros := by
  unfold getHtdpShift
  split <;> rfl

/-- Leaving the hub is the cell-wise negation of reaching it, for every
frame resolved with its default geoid and the default 1997.0 epoch. -/
theorem stepFromHub_is_neg_stepToHub (env : Env ny nx) (x : ℕ)
    (i : Fin ny) (j : Fin nx) :
    (stepFromHub env (some x) (get_frame_type (some x)) (get_default_geoid x) 1997).1 i j
      = vneg ((stepToHub env (some x) (get_frame_type (some x))
          (get_default_geoid x) 1997).1 i j) := by
  unfold get_frame_type
  dsimp only
  by_cases hs : alist.mem SURFACES x = true
  · rw [if_pos hs]
    have hx : ¬ x = HUB_EPSG := surface_ne_hub x hs
    unfold stepToHub stepFromHub
    rw [if_neg (not_hub_pair x hx), if_neg (not_hub_pair x hx), if_pos rfl, if_pos rfl]
    dsimp only
    rw [chain_geoid_normalize]
    exact negOne_cell _ i j
  · rw [if_neg hs]
    by_cases hh : alist.mem HTDP_FRAMES x = true
    · rw [if_pos hh]
      by_cases hhub : (some x : Option ℕ) = some HUB_EPSG ∧ (1997 : ℚ) = 1997
      · unfold stepToHub stepFromHub
        rw [if_pos hhub, if_pos hhub]
        show (Grid.zeros : Grid ℚ ny nx) i j = vneg (Grid.zeros i j)
        simp [Grid.zeros, vneg]
      · unfold stepToHub stepFromHub
        rw [if_neg hhub, if_neg hhub,
            if_neg (show ¬ (some "htdp" : Option String) = some "surface" from by decide),
            if_neg (show ¬ (some "htdp" : Option String) = some "surface" from by decide),
            if_neg (show ¬ (some "htdp" : Option String) = some "cdn" from by decide),
            if_neg (show ¬ (some "htdp" : Option String) = some "cdn" from by decide),
            if_pos rfl, if_pos rfl]
        dsimp only
        rw [getHtdpShift_zeros, getHtdpShift_zeros]
        show (Grid.zeros : Grid ℚ ny nx) i j = vneg (Grid.zeros i j)
        simp [Grid.zeros, vneg]
    · rw [if_neg hh]
      by_cases hc : alist.mem CDN x = true
      · rw [if_pos hc]
        have hx : ¬ x = HUB_EPSG := by
          intro hxx
          subst hxx
          exact hh htdp_mem_hub
        obtain ⟨s, hsg, hsne⟩ := cdn_default_geoid x hc
        rw [hsg, stepToHub_cdn_grid env x s hx hsne, stepFromHub_cdn_grid env x s hx hsne]
        exact negOne_cell _ i j
      · rw [if_neg hc]
        have hx : ¬ x = HUB_EPSG := by
          intro hxx
          subst hxx
          exact hh htdp_mem_hub
        unfold stepToHub stepFromHub
        rw [if_neg (not_hub_pair x hx), if_neg (not_hub_pair x hx),
            if_neg (show ¬ (none : Option String) = some "surface" from by decide),
            if_neg (show ¬ (none : Option String) = some "surface" from by decide),
            if_neg (show ¬ (none : Option String) = some "cdn" from by decide),
            if_neg (show ¬ (none : Option String) = some "cdn" from by decide),
            if_neg (show ¬ (none : Option String) = some "htdp" from by decide),
            if_neg (show ¬ (none : Option String) = some "htdp" from by decide)]
        show (Grid.zeros : Grid ℚ ny nx) i j = vneg (Grid.zeros i j)
        simp [Grid.zeros, vneg]

/-- Claim C7: for distinct frames with no geoid or epoch overrides (defaults
throughout) and one fixed deterministic fetch environment,
`computeShift(A,B)` is the cell-wise negation of `computeShift(B,A)`; in
particular the from-hub leg of a tidal frame is the negation of the to-hub
chain built from the same three grids. -/
theorem computeShift_antisym (env : Env ny nx) (a b : ℕ) (hab : ¬ a = b)
    (i : Fin ny) (j : Fin nx) :
    ((verticalTransform env (vtPair a b)).1 i j
      = vneg ((verticalTransform env (vtPair b a)).1 i j))
    ∧ ∀ (x : ℕ) (g : Option String),
        get_frame_type (some x) = some "surface" →
        (stepFromHub env (some x) (some "surface") g 1997).1 i j
          = vneg ((stepToHub env (some x) (some "surface") g 1997).1 i j) := by
  constructor
  · rw [verticalTransform_cell env (vtPair a b)
        (fun hcon => hab (Option.some.inj hcon.1)) i j,
        verticalTransform_cell env (vtPair b a)
        (fun hcon => hab (Option.some.inj hcon.1).symm) i j]
    dsimp only [vtPair]
    rw [stepFromHub_is_neg_stepToHub env b i j, stepFromHub_is_neg_stepToHub env a i j]
    cases h1 : (stepToHub env (some a) (get_frame_type (some a))
        (get_default_geoid a) 1997).1 i j <;>
      cases h2 : (stepToHub env (some b) (get_frame_type (some b))
        (get_default_geoid b) 1997).1 i j <;>
      simp [vadd, vneg]
  · intro x g hft
    have hmem : alist.mem SURFACES x = true := by
      by_contra hns
      unfold get_frame_type at hft
      dsimp only at hft
      rw [if_neg hns] at hft
      by_cases hh : alist.mem HTDP_FRAMES x = true
      · rw [if_pos hh] at hft
        exact absurd (Option.some.inj hft) (by decide)
      · rw [if_neg hh] at hft
        by_cases hc : alist.mem CDN x = true
        · rw [if_pos hc] at hft
          exact absurd (Option.some.inj hft) (by decide)
        · rw [if_neg hc] at hft
          exact Option.noConfusion hft
    have hx : ¬ x = HUB_EPSG := surface_ne_hub x hmem
    unfold stepToHub stepFromHub
    rw [if_neg (not_hub_pair x hx), if_neg (not_hub_pair x hx), if_pos rfl, if_pos rfl]
    dsimp only
    rw [chain_geoid_normalize]
    exact negOne_cell _ i j

/-- Witness for C7 at the concrete pair `mllw` (1089) and NAVD88 (5703) in
an empty-fetch environment. -/
theorem computeShift_antisym_witness :
    (¬ (1089 : ℕ) = 5703) ∧
    (((verticalTransform envEmptyFetch (vtPair 1089 5703)).1 0 0
        = vneg ((verticalTransform envEmptyFetch (vtPair 5703 1089)).1 0 0))
      ∧ ∀ (x : ℕ) (g : Option String),
          get_frame_type (some x) = some "surface" →
          (stepFromHub envEmptyFetch (some x) (some "surface") g 1997).1 0 0
            = vneg ((stepToHub envEmptyFetch (some x) (some "surface") g 1997).1 0 0)) :=
  ⟨by decide, computeShift_antisym envEmptyFetch 1089 5703 (by decide) 0 0⟩

/-! ## Mosaic merge (C4) and interpolation bounds behavior (C3) -/

/-- Unrolling the mosaic fold: a cell of the accumulated mosaic is its own
value if already valid, else the first valid value among the remaining
patches. -/
theorem loadAux {α : Type} [LinearOrderedField α] {ny nx : ℕ} (dsqrt : ℕ → α)
    (readRaster : String → Option (Source α)) (reg : Region4 α)
    (files : List String) (acc : Grid α ny nx) (i : Fin ny) (j : Fin nx) :
    (files.foldl (mosaicStep dsqrt readRaster reg) acc) i j =
    (match acc i j with
     | some v => some v
     | none => firstValidAt (patchesOf dsqrt readRaster files reg nx ny) i j) := by
  induction files generalizing acc with
  | nil =>
      cases h : acc i j <;> simp [patchesOf, firstValidAt, h]
  | cons fn fs ih =>
      rw [List.foldl_cons]
      cases hF : (readRaster fn).bind (processSource dsqrt reg nx ny) with
      | none =>
          rw [show mosaicStep dsqrt readRaster reg acc fn = acc from by
            unfold mosaicStep; rw [hF]]
          rw [ih acc]
          cases h : acc i j <;>
            simp [patchesOf, List.filterMap_cons, hF, firstValidAt]
      | some p =>
          rw [show mosaicStep dsqrt readRaster reg acc fn
              = (fun i2 j2 => mergeCell (acc i2 j2) (p i2 j2)) from by
            unfold mosaicStep; rw [hF]]
          rw [ih (fun i2 j2 => mergeCell (acc i2 j2) (p i2 j2))]
          cases h : acc i j with
          | some v =>
              simp [patchesOf, List.filterMap_cons, hF, firstValidAt, mergeCell, h]
          | none =>
              cases hp : p i j <;>
                simp [patchesOf, List.filterMap_cons, hF, firstValidAt, mergeCell, h, hp]

/-- Claim C4: the mosaic assigns each target cell the value of the first
source (in caller-given file order) whose interpolated patch is valid
there, and the merge never overwrites an already-valid mosaic cell. -/
theorem mosaic_first_valid_wins {α : Type} [LinearOrderedField α] {ny nx : ℕ}
    (dsqrt : ℕ → α) (readRaster : String → Option (Source α)) (files : List String)
    (reg : Region4 α) (i : Fin ny) (j : Fin nx) :
    loadAndInterpolate dsqrt readRaster files reg nx ny i j
      = firstValidAt (patchesOf dsqrt readRaster files reg nx ny) i j
    ∧ ∀ (m p : Val α),
        mergeCell m p = (match m with | some v => some v | none => p) := by
  constructor
  · unfold loadAndInterpolate
    rw [loadAux]
  · intro m p
    cases m <;> cases p <;> simp [mergeCell]

/-- Claim C3 counterexample: mosaicking the constant-1 source on
[0,1]×[0,1] onto the region whose cell (1,1) samples the point (2, 2) —
outside the source's bounding box (both axes end at 1 < 2) — produces the
extrapolated value 1 there, not NaN. -/
theorem out_of_bounds_extrapolates :
    loadAndInterpolate (fun _ => (0 : ℚ)) readConst1 ["a.tif"] regBeyond 2 2 1 1
      = some 1
    ∧ linspaceAt (0 : ℚ) 2 2 1 = 2
    ∧ srcConst1.lons.max? = some 1 ∧ srcConst1.lats.max? = some 1 ∧ ((1 : ℚ) < 2)
    ∧ ¬ (some (1 : ℚ) = (none : Val ℚ)) := by
  have hl : linspaceAt (0 : ℚ) 2 2 1 = 2 := by norm_num [linspaceAt]
  have hstep : loadAndInterpolate (fun _ => (0 : ℚ)) readConst1 ["a.tif"] regBeyond 2 2 1 1
      = mergeCell none (interpAt [0, 1] [0, 1] [[some 1, some 1], [some 1, some 1]]
          (linspaceAt 0 2 2 1) (linspaceAt 0 2 2 1)) := rfl
  have hint : interpAt ([0, 1] : List ℚ) [0, 1] [[some 1, some 1], [some 1, some 1]]
      (linspaceAt 0 2 2 1) (linspaceAt 0 2 2 1) = some 1 := by
    rw [hl]
    unfold interpAt findInterval searchsortedL normDist axisAt corner
    norm_num [List.takeWhile, vadd, vscale]
  refine ⟨?_, hl, rfl, rfl, by norm_num, by simp⟩
  rw [hstep, hint]
  rfl

/-- Claim C3 (amended): the interpolator is constructed with
`bounds_error=False` and `fill_value=None`, so out-of-bounds queries are
linearly extrapolated instead of returning NaN: for a source whose cells
all hold the constant `c`, every query — inside or outside the axes'
bounding box — returns `some c`, never `none`. -/
theorem interp_extrapolates_const {α : Type} [LinearOrderedField α]
    (lats lons : List α) (data : List (List (Val α))) (c : α)
    (h2a : 2 ≤ lats.length) (h2b : 2 ≤ lons.length)
    (hdl : data.length = lats.length)
    (hconst : ∀ row ∈ data, row.length = lons.length ∧ ∀ v ∈ row, v = some c)
    (y x : α) :
    interpAt lats lons data y x = some c := by
  have hcell : ∀ i2 j2, i2 < lats.length → j2 < lons.length →
      corner data i2 j2 = some c := by
    intro i2 j2 hi hj
    have hi2 : i2 < data.length := by rw [hdl]; exact hi
    unfold corner
    rw [List.get?_eq_get hi2]
    dsimp only
    obtain ⟨hlen, hvals⟩ := hconst _ (List.get_mem data i2 hi2)
    have hj2 : j2 < (data.get ⟨i2, hi2⟩).length := by rw [hlen]; exact hj
    rw [List.get?_eq_get hj2]
    exact hvals _ (List.get_mem _ j2 hj2)
  have hi1 : findInterval lats y + 1 < lats.length := by
    have h1 : findInterval lats y ≤ lats.length - 2 := by
      unfold findInterval
      exact Nat.min_le_right _ _
    omega
  have hj1 : findInterval lons x + 1 < lons.length := by
    have h1 : findInterval lons x ≤ lons.length - 2 := by
      unfold findInterval
      exact Nat.min_le_right _ _
    omega
  unfold interpAt
  dsimp only
  rw [hcell _ _ (by omega) (by omega), hcell _ _ (by omega) (by omega),
      hcell _ _ (by omega) (by omega), hcell _ _ (by omega) (by omega)]
  simp only [vscale, vadd, Option.some.injEq]
  ring

/-- Witness for C3 (amended): a constant-5 source on [0,1]×[0,1] queried at
(3, 3), far outside its bounding box, still yields 5. -/
theorem interp_extrapolates_const_witness :
    (2 ≤ ([0, 1] : List ℚ).length) ∧ (2 ≤ ([0, 1] : List ℚ).length) ∧
    ([[some 5, some 5], [some 5, some 5]] : List (List (Val ℚ))).length
      = ([0, 1] : List ℚ).length ∧
    (∀ row ∈ ([[some 5, some 5], [some 5, some 5]] : List (List (Val ℚ))),
      row.length = ([0, 1] : List ℚ).length ∧ ∀ v ∈ row, v = some 5) ∧
    interpAt ([0, 1] : List ℚ) [0, 1] [[some 5, some 5], [some 5, some 5]] 3 3
      = some 5 :=
  ⟨by decide, by decide, by decide, by decide,
    interp_extrapolates_const [0, 1] [0, 1] [[some 5, some 5], [some 5, some 5]] 5
      (by decide) (by decide) (by decide) (by decide) 3 3⟩

/-! ## Decay fill (C8) -/

theorem getCell_enum_map {α : Type} [LinearOrderedField α]
    (data : List (List (Val α))) (g : ℕ → ℕ → Val α → Val α) (i j : ℕ)
    (row : List (Val α)) (c : Val α)
    (hrow : data.get? i = some row) (hc : row.get? j = some c) :
    getCell (data.enum.map (fun p => p.2.enum.map (fun q => g p.1 q.1 q.2))) i j
      = some (g i j c) := by
  unfold getCell
  rw [List.get?_map, List.get?_enum, hrow]
  simp only [Option.map_some', Option.some_bind]
  rw [List.get?_map, List.get?_enum, hc]
  rfl

/-- An element of `validCells` is a valid (non-NaN) cell of the grid. -/
theorem validCells_sound {α : Type} [LinearOrderedField α]
    (data : List (List (Val α))) (e : ℕ × ℕ × α) (he : e ∈ validCells data) :
    ∃ row ∈ data, some e.2.2 ∈ row := by
  unfold validCells at he
  rw [List.mem_flatten] at he
  obtain ⟨s, hs, hes⟩ := he
  rw [List.mem_map] at hs
  obtain ⟨p, hp, rfl⟩ := hs
  rw [List.mem_filterMap] at hes
  obtain ⟨q, hq, hqe⟩ := hes
  cases hcell : q.2 with
  | none => rw [hcell] at hqe; exact absurd hqe (by simp)
  | some v =>
      rw [hcell] at hqe
      have he2 : e = (p.1, q.1, v) := (Option.some.inj hqe).symm
      refine ⟨p.2, List.snd_mem_of_mem_enum hp, ?_⟩
      rw [he2]
      dsimp only
      rw [← hcell]
      exact List.snd_mem_of_mem_enum hq

theorem nearestValid_source {α : Type} [LinearOrderedField α]
    (data : List (List (Val α))) (i j : ℕ) (dv : ℕ × α)
    (hnear : nearestValid data i j = some dv) :
    validCells data ≠ [] := by
  intro hnil
  unfold nearestValid at hnear
  rw [hnil] at hnear
  exact Option.noConfusion hnear

/-- Claim C8: with decay distance `D > 0`, a NaN cell whose nearest valid
cell holds `v` at squared pixel distance `d2v` is filled with
`v * clip((D - sqrt d2v)/D, 0, 1)`; the clip makes this exactly
`v * (D - d)/D` when `d ≤ D` and exactly `0` when `d > D`. -/
theorem fill_nans_decay (data : List (List (Val ℝ))) (D : ℕ) (hD : 0 < D)
    (i j : ℕ) (hnan : getCell data i j = some none)
    (d2v : ℕ) (v : ℝ) (hnear : nearestValid data i j = some (d2v, v)) :
    getCell (fill_nans (fun n => Real.sqrt n) data D) i j
      = some (some (v * clip (((D : ℝ) - Real.sqrt d2v) / (D : ℝ)) 0 1))
    ∧ (Real.sqrt d2v ≤ (D : ℝ) →
        v * clip (((D : ℝ) - Real.sqrt d2v) / (D : ℝ)) 0 1
          = v * (((D : ℝ) - Real.sqrt d2v) / (D : ℝ)))
    ∧ ((D : ℝ) < Real.sqrt d2v →
        v * clip (((D : ℝ) - Real.sqrt d2v) / (D : ℝ)) 0 1 = 0) := by
  obtain ⟨row, hrow, hcnone⟩ :
      ∃ row, data.get? i = some row ∧ row.get? j = some none := by
    unfold getCell at hnan
    exact Option.bind_eq_some.mp hnan
  have hhas : hasNaN data = true := by
    unfold hasNaN
    rw [List.any_eq_true]
    refine ⟨row, List.get?_mem hrow, ?_⟩
    rw [List.any_eq_true]
    exact ⟨none, List.get?_mem hcnone, rfl⟩
  have hall : allNaN data = false := by
    rcases hne : validCells data with _ | ⟨e, rest⟩
    · exact absurd hne (nearestValid_source data i j _ hnear)
    · obtain ⟨row2, hrow2, hv2⟩ :=
        validCells_sound data e (by rw [hne]; exact List.mem_cons_self _ _)
      rw [Bool.eq_false_iff]
      intro htrue
      unfold allNaN at htrue
      rw [List.all_eq_true] at htrue
      have h2 := htrue row2 hrow2
      rw [List.all_eq_true] at h2
      have h3 := h2 _ hv2
      simp at h3
  refine ⟨?_, ?_, ?_⟩
  · unfold fill_nans
    rw [hhas, hall]
    simp only [Bool.not_true]
    rw [if_neg (by decide), if_neg (by decide)]
    rw [getCell_enum_map data (fillCell (fun n => Real.sqrt n) data D) i j row none
        hrow hcnone]
    unfold fillCell
    dsimp only
    rw [hnear]
  · intro hle
    have h0 : (0 : ℝ) ≤ Real.sqrt d2v := Real.sqrt_nonneg _
    have hDpos : (0 : ℝ) < D := by exact_mod_cast hD
    have hx0 : 0 ≤ ((D : ℝ) - Real.sqrt d2v) / D :=
      div_nonneg (by linarith) (le_of_lt hDpos)
    have hx1 : ((D : ℝ) - Real.sqrt d2v) / D ≤ 1 := by
      rw [div_le_one hDpos]
      linarith
    unfold clip
    rw [max_eq_left hx0, min_eq_left hx1]
  · intro hlt
    have hDpos : (0 : ℝ) < D := by exact_mod_cast hD
    have hx : ((D : ℝ) - Real.sqrt d2v) / D < 0 :=
      div_neg_of_neg_of_pos (by linarith) hDpos
    unfold clip
    rw [max_eq_right (le_of_lt hx), min_eq_left (by norm_num), mul_zero]

/-- Witness for C8: a 1×2 grid `[4, NaN]`, decay distance 2; the NaN cell
is at distance 1 from the valid cell 4. -/
theorem fill_nans_decay_witness :
    0 < 2
    ∧ getCell [[some (4 : ℝ), none]] 0 1 = some none
    ∧ nearestValid [[some (4 : ℝ), none]] 0 1 = some (1, 4)
    ∧ (getCell (fill_nans (fun n => Real.sqrt n) [[some (4 : ℝ), none]] 2) 0 1
        = some (some ((4 : ℝ) *
            clip ((((2 : ℕ) : ℝ) - Real.sqrt ((1 : ℕ) : ℝ)) / ((2 : ℕ) : ℝ)) 0 1))
      ∧ (Real.sqrt ((1 : ℕ) : ℝ) ≤ ((2 : ℕ) : ℝ) →
          (4 : ℝ) * clip ((((2 : ℕ) : ℝ) - Real.sqrt ((1 : ℕ) : ℝ)) / ((2 : ℕ) : ℝ)) 0 1
            = (4 : ℝ) * ((((2 : ℕ) : ℝ) - Real.sqrt ((1 : ℕ) : ℝ)) / ((2 : ℕ) : ℝ)))
      ∧ (((2 : ℕ) : ℝ) < Real.sqrt ((1 : ℕ) : ℝ) →
          (4 : ℝ) * clip ((((2 : ℕ) : ℝ) - Real.sqrt ((1 : ℕ) : ℝ)) / ((2 : ℕ) : ℝ)) 0 1
            = 0)) :=
  ⟨by decide, rfl, rfl, fill_nans_decay [[some (4 : ℝ), none]] 2 (by decide) 0 1 rfl 1 4 rfl⟩

/-! ## HTDP output parsing (C10) -/

/-- A successful in-range store writes the height at `grid[row][col]`. -/
theorem storeAt_sets (grid : List (List ℚ)) (y x : ℕ) (q : ℚ) (row : List ℚ)
    (hrow : grid.get? y = some row) (hx : x < row.length) :
    storeAt grid (y : Int) (x : Int) q = some (grid.set y (row.set x q))
    ∧ cellQ (grid.set y (row.set x q)) y x = some q := by
  have hy : y < grid.length := by
    by_contra hc
    rw [List.get?_eq_none.mpr (by omega)] at hrow
    exact Option.noConfusion hrow
  constructor
  · unfold storeAt
    rw [if_pos (by omega : -((grid.length : Int)) ≤ (y : Int) ∧ (y : Int) < (grid.length : Int))]
    dsimp only
    rw [if_neg (by omega : ¬ ((y : Int) < 0)), Int.toNat_natCast, hrow]
    dsimp only
    rw [if_pos (by omega : -((row.length : Int)) ≤ (x : Int) ∧ (x : Int) < (row.length : Int))]
    rw [if_neg (by omega : ¬ ((x : Int) < 0)), Int.toNat_natCast]
  · unfold cellQ
    rw [List.get?_set_eq_of_lt _ hy]
    exact List.get?_set_eq_of_lt _ hx

/-- Claim C10: the point-count check of `_read_grid` is fatal — whenever the
loop stores fewer than `rows * cols` points the result is the error (no
partial grid is returned) — and each parsed height is stored at the
`(row, col)` address re-derived from its quoted `PNT_<col>_<row>` tag: an
in-range store writes exactly `grid[row][col]`, and the record tagged
`PNT_3_7` parses to column 3, row 7 and lands at cell (7, 3). -/
theorem htdp_count_and_addressing :
    (∀ (verbose : Bool) (fileLines : List String) (rows cols : ℕ),
        (readLoop (if verbose then fileLines.drop 5 else fileLines)
            (zeroGrid rows cols) 0).2 < rows * cols →
        readGrid verbose fileLines rows cols
          = Except.error (countMsg
              (readLoop (if verbose then fileLines.drop 5 else fileLines)
                (zeroGrid rows cols) 0).2 (rows * cols)))
    ∧ (∀ (grid : List (List ℚ)) (y x : ℕ) (q : ℚ) (row : List ℚ),
        grid.get? y = some row → x < row.length →
        storeAt grid (y : Int) (x : Int) q = some (grid.set y (row.set x q))
        ∧ cellQ (grid.set y (row.set x q)) y x = some q)
    ∧ (∃ lat lon h, parseLine samplePoint = some (3, 7, lat, lon, h)
        ∧ cellQ (readLoop [samplePoint] (zeroGrid 10 10) 0).1 7 3 = some h
        ∧ (readLoop [samplePoint] (zeroGrid 10 10) 0).2 = 1) := by
  refine ⟨?_, ?_, ?_⟩
  · intro verbose fileLines rows cols h
    unfold readGrid
    dsimp only
    rw [if_pos h]
  · intro grid y x q row hrow hx
    exact storeAt_sets grid y x q row hrow hx
  · exact ⟨_, _, _, rfl, rfl, rfl⟩

/-- Witness for C10: one well-formed record (tag `PNT_0_0`) against a
requested 1×2 grid is a shortfall, hence the error result; the storeAt
facts are witnessed on a concrete 2×2 grid. -/
theorem htdp_count_and_addressing_witness :
    ((readLoop (if false then ([samplePoint] : List String).drop 5 else [samplePoint])
        (zeroGrid 10 10) 0).2 < 10 * 10
      ∧ readGrid false [samplePoint] 10 10
          = Except.error (countMsg
              (readLoop (if false then ([samplePoint] : List String).drop 5
                  else [samplePoint]) (zeroGrid 10 10) 0).2 (10 * 10)))
    ∧ (([[0, 0], [0, 0]] : List (List ℚ)).get? 1 = some [0, 0] ∧ 0 < ([0, 0] : List ℚ).length
      ∧ storeAt ([[0, 0], [0, 0]] : List (List ℚ)) ((1 : ℕ) : Int) ((0 : ℕ) : Int) 9
          = some (([[0, 0], [0, 0]] : List (List ℚ)).set 1 (([0, 0] : List ℚ).set 0 9))
      ∧ cellQ (([[0, 0], [0, 0]] : List (List ℚ)).set 1 (([0, 0] : List ℚ).set 0 9)) 1 0
          = some 9) := by
  have hmain := htdp_count_and_addressing
  have hcount : (readLoop (if false then ([samplePoint] : List String).drop 5
      else [samplePoint]) (zeroGrid 10 10) 0).2 < 10 * 10 := by
    have h1 : (readLoop (if false then ([samplePoint] : List String).drop 5
        else [samplePoint]) (zeroGrid 10 10) 0).2 = 1 := rfl
    rw [h1]
    decide
  have hstore := hmain.2.1 [[0, 0], [0, 0]] 1 0 9 [0, 0] rfl (by decide)
  exact ⟨⟨hcount, hmain.1 false [samplePoint] 10 10 hcount⟩,
    rfl, by decide, hstore.1, hstore.2⟩

end Transformez
